import Mathlib

/-!
Verification of the file-transfer service (`app/services/transfer.py`) of the
apstra_commit_backup repository.

The module has two functions:

* `transfer_file(config, full_path, blueprint_id, blueprint_name)` — composes a
  custom remote-filename prefix from blueprint metadata and a timestamp, then
  dispatches (hardcoded) to the SCP method.
* `transfer_scp(config, local_file_path, full_path, custom_filename)` — validates
  the configuration, opens a paramiko SSH session, resolves the remote directory,
  uploads a fixed staging-area artifact over SCP, and returns a boolean.

The embedding below is a shallow one.  The ambient effects (the wall clock, the
network, the remote host) are an explicit `World` oracle passed in as data: each
fallible library call (`ssh.connect`, `ssh.exec_command`, `scp.put`) either
succeeds or raises the exception recorded in the oracle.  Observable side
effects (session creation, connection attempts, home-directory queries, upload
calls with their source and destination paths, and the number of `close` calls
on the SCP sub-channel and the SSH session) are accumulated in a `Trace`, so
that claims about "no network I/O" or "resources released exactly once" become
statements about trace fields.
-/

namespace ApstraBackup

/-- Python `str.endswith` for a one-or-two character suffix, modelled over the
code-point list of the string (Python strings are code-point sequences). -/
def pyEndsWith (s suffix : String) : Bool :=
  suffix.data.isSuffixOf s.data

/-- Python `str.startswith`, modelled over the code-point list of the
string. -/
def pyStartsWith (s pre : String) : Bool :=
  pre.data.isPrefixOf s.data

/-- Python slicing `s[n:]`, modelled over the code-point list of the
string. -/
def pyDrop (s : String) (n : Nat) : String :=
  String.mk (s.data.drop n)

/-- POSIX `os.path.basename`: the part after the last `/`
(empty when the path ends in `/`). -/
def basename (p : String) : String :=
  String.mk ((p.data.splitOn '/').getLastD [])

/-- Python truthiness of an optional string: `None` and `""` are falsy,
every other string is truthy. -/
def truthy : Option String → Bool
  | none => false
  | some s => s != ""

/-- The exception classes distinguished by the `except` clauses of
`transfer_scp` (lines 145-153): `paramiko.AuthenticationException`,
`paramiko.SSHException`, and any other `Exception`. -/
inductive PyErr where
  | authentication
  | ssh
  | other
deriving DecidableEq, Repr

/-- Oracle for the ambient effects of one invocation: whether each fallible
library call raises, and what the remote `echo $HOME` query returns
(already decoded and stripped, as in line 128 of the source). -/
structure World where
  connectErr : Option PyErr := none
  execErr : Option PyErr := none
  homeDir : String := ""
  putErr : Option PyErr := none
deriving DecidableEq, Repr

/-- Observable side effects of one invocation. `puts` records each
`scp.put(source, destination)` call. -/
structure Trace where
  sessionsCreated : Nat := 0
  connectAttempts : Nat := 0
  homeQueries : Nat := 0
  puts : List (String × String) := []
  scpCloseCount : Nat := 0
  sshCloseCount : Nat := 0
deriving DecidableEq, Repr

/-- The transfer-method sub-configuration consumed by `transfer_scp`
(lines 73-78): each field is read with `config.get`, so an absent key is
`none`. -/
structure ScpConfig where
  host : Option String := none
  port : Option Nat := none
  username : Option String := none
  password : Option String := none
  ssh_key_path : Option String := none
  remote_directory : Option String := none
deriving DecidableEq, Repr

/-- The top-level configuration consumed by `transfer_file` (line 46):
only the nested `"transfer"` mapping is read, defaulting to `{}`. -/
structure AppConfig where
  transfer : Option ScpConfig := none
deriving DecidableEq, Repr

/-- Zero-padded decimal rendering, as produced by the `strftime`
fixed-width conversions. -/
def padZero (width n : Nat) : String :=
  let s := toString n
  String.mk (List.replicate (width - s.length) '0') ++ s

/-- The local wall-clock reading taken by `datetime.datetime.now()`. -/
structure Clock where
  year : Nat
  month : Nat
  day : Nat
  hour : Nat
  minute : Nat
  second : Nat
deriving DecidableEq, Repr

/-- Rendering of `datetime.datetime.now().strftime("%Y%m%d_%H%M%S")`
(line 30): the timestamp component of the composed filename. -/
def strftimeTimestamp (c : Clock) : String :=
  padZero 4 c.year ++ padZero 2 c.month ++ padZero 2 c.day ++ "_" ++
  padZero 2 c.hour ++ padZero 2 c.minute ++ padZero 2 c.second

/-- Lines 31-43 of `transfer_file`: build `filename_parts` from the blueprint
metadata, append the timestamp, and join with `"-"`.  The spec calls this the
Filename Composer, `compose(blueprint_id, blueprint_name)`; the timestamp is
passed explicitly here because the source reads the ambient clock. -/
def compose (blueprint_id blueprint_name : Option String) (timestamp : String) :
    String :=
  let filename_parts : List String := []
  let filename_parts :=
    if truthy blueprint_name && (blueprint_name.getD "" != "Default Blueprint") then
      filename_parts ++ [blueprint_name.getD ""]
    else if truthy blueprint_id && (blueprint_id.getD "" != "default") then
      filename_parts ++ [blueprint_id.getD ""]
    else
      filename_parts
  let filename_parts := filename_parts ++ [timestamp]
  String.intercalate "-" filename_parts

/-- Lines 88-92 of `transfer_scp`: the remote filename is
`<custom_filename>-aos.data.tar.gz` when `custom_filename` is truthy, else
`<basename(full_path)>-aos.data.tar.gz` (where `filename` was computed on
line 85 as `os.path.basename(full_path)`). -/
def remoteFilenameOf (full_path : String) (custom_filename : Option String) :
    String :=
  let filename := basename full_path
  if truthy custom_filename then
    custom_filename.getD "" ++ "-aos.data.tar.gz"
  else
    filename ++ "-aos.data.tar.gz"

/-- Lines 133-143 of `transfer_scp`: `scp.put(full_aos_path, remote_path)`,
then `scp.close()`, `ssh.close()`, `return True`.  If `put` raises, control
jumps to the `except` clauses (return `False`) without reaching either
`close()` call. -/
def scpPutAndClose (full_aos_path remote_path : String) (t : Trace) (w : World) :
    Bool × Trace :=
  let t := { t with puts := t.puts ++ [(full_aos_path, remote_path)] }
  match w.putErr with
  | some _ => (false, t)
  | none =>
      (true, { t with scpCloseCount := t.scpCloseCount + 1,
                      sshCloseCount := t.sshCloseCount + 1 })

/-- Embedding of `transfer_scp(config, local_file_path, full_path,
custom_filename)` (lines 60-153).  Returns the boolean result paired with the trace of
observable effects.  Every exception raised by a library call inside the
`try` block is caught by the `except` clauses and converted to `False`. -/
def transfer_scp (config : ScpConfig) (local_file_path : String)
    (full_path : String) (custom_filename : Option String) (w : World) :
    Bool × Trace :=
  let host := config.host
  let username := config.username
  let remote_dir := config.remote_directory.getD "~/"
  if !(truthy host && truthy username) then
    (false, {})
  else
    let full_aos_path :=
      "/var/lib/aos/snapshot/" ++ local_file_path ++ "/aos.data.tar.gz"
    let remote_filename := remoteFilenameOf full_path custom_filename
    let t : Trace := { sessionsCreated := 1, connectAttempts := 1 }
    match w.connectErr with
    | some _ => (false, t)
    | none =>
        let remote_dir :=
          if !(pyEndsWith remote_dir "/") then remote_dir ++ "/" else remote_dir
        if pyStartsWith remote_dir "~/" then
          let t := { t with homeQueries := 1 }
          match w.execErr with
          | some _ => (false, t)
          | none =>
              let home_dir := w.homeDir
              let remote_path :=
                home_dir ++ "/" ++ pyDrop remote_dir 2 ++ remote_filename
              scpPutAndClose full_aos_path remote_path t w
        else
          let remote_path := remote_dir ++ remote_filename
          scpPutAndClose full_aos_path remote_path t w

/-- Embedding of `transfer_file(config, full_path, blueprint_id,
blueprint_name)` (lines 16-58): compose the custom filename, take the basename of
`full_path`, read the nested transfer configuration, and dispatch on the
hardcoded method `"scp"`. -/
def transfer_file (config : AppConfig) (full_path : String)
    (blueprint_id blueprint_name : Option String) (clock : Clock) (w : World) :
    Bool × Trace :=
  let timestamp := strftimeTimestamp clock
  let custom_filename := compose blueprint_id blueprint_name timestamp
  let local_file_path := basename full_path
  let transfer_config := config.transfer.getD {}
  let method := "scp"
  if method == "scp" then
    transfer_scp transfer_config local_file_path full_path (some custom_filename) w
  else
    (false, {})

/-- Spec-side statement of the Filename Composer policy (§4.1), written as the
ordered first-match-wins case split the spec describes, for comparison with
the list-building `compose` translated from the code. -/
def composePolicySpec (blueprint_id blueprint_name : Option String)
    (timestamp : String) : String :=
  if truthy blueprint_name && (blueprint_name.getD "" != "Default Blueprint") then
    blueprint_name.getD "" ++ "-" ++ timestamp
  else if truthy blueprint_id && (blueprint_id.getD "" != "default") then
    blueprint_id.getD "" ++ "-" ++ timestamp
  else
    timestamp

/-- Spec-side statement of remote-directory resolution (§4.2 step 4): ensure a
trailing separator, then substitute the remote home directory for the `~/`
shorthand. -/
def resolveRemoteDirSpec (remote_dir home : String) : String :=
  let rd := if pyEndsWith remote_dir "/" then remote_dir else remote_dir ++ "/"
  if pyStartsWith rd "~/" then home ++ "/" ++ pyDrop rd 2 else rd

/-- Whether `transfer_scp` queries the remote home directory for a given
configured remote directory: after the trailing-separator fix, the directory
begins with the `~/` shorthand.  Used to state exactly when the
`echo $HOME` step participates in the outcome. -/
def homeNeeded (remote_dir : String) : Bool :=
  pyStartsWith
    (if pyEndsWith remote_dir "/" then remote_dir else remote_dir ++ "/") "~/"

/-- Truthiness-normalisation of an optional string: a falsy value (`none` or
`some ""`) becomes `none`, a truthy value is kept.  Used to state that the
composer does not distinguish `None` from the empty string. -/
def normOpt (o : Option String) : Option String :=
  if truthy o then o else none

/-- Concrete configuration with a missing host, for witnesses. -/
def cfgMissingHost : ScpConfig :=
  { username := some "svc" }

/-- Concrete valid configuration with an absolute remote directory lacking a
trailing separator, for witnesses. -/
def cfgSrv : ScpConfig :=
  { host := some "backup.example", username := some "svc",
    remote_directory := some "/srv/backups" }

/-- Concrete valid configuration with a home-relative remote directory, for
witnesses. -/
def cfgTilde : ScpConfig :=
  { host := some "backup.example", username := some "svc",
    remote_directory := some "~/backups/" }

/-- Oracle in which every library call succeeds and the remote home directory
is `/home/svc`, for witnesses. -/
def wHome : World :=
  { homeDir := "/home/svc" }

/-- Oracle in which `scp.put` raises mid-transfer and everything before it
succeeds. -/
def wPutRaises : World :=
  { putErr := some PyErr.other }

/-! ### Helper lemmas -/

theorem truthy_some_iff (s : String) : truthy (some s) = true ↔ s ≠ "" := by
  simp [truthy]

theorem truthy_none : truthy none = false := rfl

theorem normOpt_of_truthy {o : Option String} (h : truthy o = true) :
    normOpt o = o := by
  simp [normOpt, h]

theorem normOpt_of_falsy {o : Option String} (h : truthy o = false) :
    normOpt o = none := by
  simp [normOpt, h]

theorem compose_eq_policy (blueprint_id blueprint_name : Option String)
    (ts : String) :
    compose blueprint_id blueprint_name ts =
      composePolicySpec blueprint_id blueprint_name ts := by
  simp only [compose, composePolicySpec]
  split
  · rfl
  · split <;> rfl

theorem strftimeTimestamp_ne_empty (c : Clock) : strftimeTimestamp c ≠ "" := by
  intro h
  have hl := congrArg String.length h
  simp [strftimeTimestamp, String.length_append] at hl
  exact absurd hl.1.1.1.2 (by decide)

theorem compose_ne_empty (blueprint_id blueprint_name : Option String)
    (ts : String) (h : ts ≠ "") :
    compose blueprint_id blueprint_name ts ≠ "" := by
  have hts : ts.length ≠ 0 := by
    intro h0
    exact h (by cases ts with
      | mk l => simp [String.length] at h0; simp [h0])
  rw [compose_eq_policy]
  unfold composePolicySpec
  split
  · intro he
    have := congrArg String.length he
    simp [String.length_append] at this
    omega
  · split
    · intro he
      have := congrArg String.length he
      simp [String.length_append] at this
      omega
    · exact h

theorem compose_endsWith_ts (blueprint_id blueprint_name : Option String)
    (ts : String) :
    ∃ front, compose blueprint_id blueprint_name ts = front ++ ts := by
  rw [compose_eq_policy]
  unfold composePolicySpec
  split
  · exact ⟨_, rfl⟩
  · split
    · exact ⟨_, rfl⟩
    · exact ⟨"", by simp⟩

/-! ### Claims about the Filename Composer -/

/-- C5: the Filename Composer policy is ordered with first match winning: a
present-and-non-sentinel `blueprint_name` wins, else a present-and-non-sentinel
`blueprint_id`, else no name component; the timestamp is always appended and
components are joined with a hyphen.  `compose(id="b1", name="My Blueprint")`
starts with `"My Blueprint-"`, while `compose(id=None,
name="Default Blueprint")` and `compose(id="default", name=None)` each yield
only the timestamp. -/
theorem c5_filename_composer_policy :
    (∀ blueprint_id blueprint_name ts,
        compose blueprint_id blueprint_name ts =
          composePolicySpec blueprint_id blueprint_name ts) ∧
    (∀ ts, ∃ rest,
        compose (some "b1") (some "My Blueprint") ts = "My Blueprint-" ++ rest) ∧
    (∀ ts, compose none (some "Default Blueprint") ts = ts) ∧
    (∀ ts, compose (some "default") none ts = ts) := by
  refine ⟨compose_eq_policy, fun ts => ⟨ts, ?_⟩, fun ts => ?_, fun ts => ?_⟩
  · rw [compose_eq_policy]
    have h : composePolicySpec (some "b1") (some "My Blueprint") ts =
        "My Blueprint" ++ "-" ++ ts := by
      simp [composePolicySpec, truthy]
    rw [h, show ("My Blueprint" ++ "-" : String) = "My Blueprint-" by decide]
  · rw [compose_eq_policy]
    simp [composePolicySpec, truthy]
  · rw [compose_eq_policy]
    simp [composePolicySpec, truthy]

/-- C8: for every pair of blueprint inputs and every clock reading, `compose`
returns a non-empty string, because the timestamp component (which always
contains at least the `_` separator) is appended unconditionally. -/
theorem c8_compose_never_empty (blueprint_id blueprint_name : Option String)
    (c : Clock) :
    compose blueprint_id blueprint_name (strftimeTimestamp c) ≠ "" :=
  compose_ne_empty blueprint_id blueprint_name (strftimeTimestamp c)
    (strftimeTimestamp_ne_empty c)

/-- Closed witness for C8: non-emptiness at concrete inputs with both
blueprint fields absent. -/
theorem c8_compose_never_empty_witness :
    compose none none (strftimeTimestamp ⟨2024, 1, 1, 0, 0, 0⟩) ≠ "" :=
  c8_compose_never_empty none none ⟨2024, 1, 1, 0, 0, 0⟩

/-- C9: the composer decides presence by truthiness, not by distinguishing
`None` from `""`: normalising falsy inputs to `none` does not change the
result; with `blueprint_name=""` and a non-empty, non-sentinel `blueprint_id`
the name component is `blueprint_id`; with both falsy the result is the
timestamp alone. -/
theorem c9_compose_empty_string_as_absent :
    (∀ blueprint_id blueprint_name ts,
        compose blueprint_id blueprint_name ts =
          compose (normOpt blueprint_id) (normOpt blueprint_name) ts) ∧
    (∀ blueprint_id ts, blueprint_id ≠ "" → blueprint_id ≠ "default" →
        compose (some blueprint_id) (some "") ts = blueprint_id ++ "-" ++ ts) ∧
    (∀ ts, compose (some "") (some "") ts = ts) := by
  refine ⟨fun bid bn ts => ?_, fun bid ts h1 h2 => ?_, fun ts => ?_⟩
  · rw [compose_eq_policy, compose_eq_policy]
    cases hn : truthy bn <;> cases hi : truthy bid <;>
      simp [composePolicySpec, normOpt_of_truthy, normOpt_of_falsy, hn, hi,
        truthy_none]
  · rw [compose_eq_policy]
    simp [composePolicySpec, truthy, h1, h2]
  · rw [compose_eq_policy]
    simp [composePolicySpec, truthy]

/-- Closed witness for C9 at concrete inputs. -/
theorem c9_compose_empty_string_as_absent_witness :
    compose (some "b1") (some "") "20240101_000000" =
      "b1" ++ "-" ++ "20240101_000000" :=
  c9_compose_empty_string_as_absent.2.1 "b1" "20240101_000000"
    (by decide) (by decide)

theorem transfer_scp_puts_shape (cfg : ScpConfig) (seg fp : String)
    (pre : Option String) (w : World) :
    (transfer_scp cfg seg fp pre w).2.puts = [] ∨
    ∃ dst, (transfer_scp cfg seg fp pre w).2.puts =
        [("/var/lib/aos/snapshot/" ++ seg ++ "/aos.data.tar.gz", dst)] ∧
      ∃ dir, dst = dir ++ remoteFilenameOf fp pre := by
  rcases w with ⟨ce, ee, hd, pe⟩
  cases hv : (truthy cfg.host && truthy cfg.username)
  · left
    simp [transfer_scp, hv]
  · cases ce
    · by_cases hE : pyEndsWith (cfg.remote_directory.getD "~/") "/"
      · by_cases hS : pyStartsWith (cfg.remote_directory.getD "~/") "~/"
        · cases ee
          · right
            refine ⟨hd ++ "/" ++ pyDrop (cfg.remote_directory.getD "~/") 2 ++
                remoteFilenameOf fp pre, ?_,
                hd ++ "/" ++ pyDrop (cfg.remote_directory.getD "~/") 2, rfl⟩
            cases pe <;> simp [transfer_scp, scpPutAndClose, hv, hE, hS]
          · left
            simp [transfer_scp, hv, hE, hS]
        · right
          refine ⟨cfg.remote_directory.getD "~/" ++ remoteFilenameOf fp pre,
              ?_, cfg.remote_directory.getD "~/", rfl⟩
          cases ee <;> cases pe <;>
            simp [transfer_scp, scpPutAndClose, hv, hE, hS]
      · by_cases hS : pyStartsWith ((cfg.remote_directory.getD "~/") ++ "/") "~/"
        · cases ee
          · right
            refine ⟨hd ++ "/" ++ pyDrop ((cfg.remote_directory.getD "~/") ++ "/") 2 ++
                remoteFilenameOf fp pre, ?_,
                hd ++ "/" ++ pyDrop ((cfg.remote_directory.getD "~/") ++ "/") 2, rfl⟩
            cases pe <;> simp [transfer_scp, scpPutAndClose, hv, hE, hS]
          · left
            simp [transfer_scp, hv, hE, hS]
        · right
          refine ⟨(cfg.remote_directory.getD "~/") ++ "/" ++ remoteFilenameOf fp pre,
              ?_, (cfg.remote_directory.getD "~/") ++ "/", rfl⟩
          cases ee <;> cases pe <;>
            simp [transfer_scp, scpPutAndClose, hv, hE, hS]
    · left
      simp [transfer_scp, hv]

theorem transfer_scp_puts_of_connected (cfg : ScpConfig) (seg fp : String)
    (pre : Option String) (w : World)
    (hh : truthy cfg.host = true) (hu : truthy cfg.username = true)
    (hc : w.connectErr = none) (he : w.execErr = none) :
    (transfer_scp cfg seg fp pre w).2.puts =
      [("/var/lib/aos/snapshot/" ++ seg ++ "/aos.data.tar.gz",
        resolveRemoteDirSpec (cfg.remote_directory.getD "~/") w.homeDir ++
          remoteFilenameOf fp pre)] := by
  rcases w with ⟨ce, ee, hd, pe⟩
  have hc2 : ce = none := hc
  have he2 : ee = none := he
  subst hc2
  subst he2
  by_cases hE : pyEndsWith (cfg.remote_directory.getD "~/") "/"
  · by_cases hS : pyStartsWith (cfg.remote_directory.getD "~/") "~/"
    · cases pe <;>
        simp [transfer_scp, scpPutAndClose, resolveRemoteDirSpec, hh, hu, hE, hS]
    · cases pe <;>
        simp [transfer_scp, scpPutAndClose, resolveRemoteDirSpec, hh, hu, hE, hS]
  · by_cases hS : pyStartsWith ((cfg.remote_directory.getD "~/") ++ "/") "~/"
    · cases pe <;>
        simp [transfer_scp, scpPutAndClose, resolveRemoteDirSpec, hh, hu, hE, hS]
    · cases pe <;>
        simp [transfer_scp, scpPutAndClose, resolveRemoteDirSpec, hh, hu, hE, hS]

theorem transfer_scp_put_src (cfg : ScpConfig) (seg fp : String)
    (pre : Option String) (w : World) (src dst : String)
    (hmem : (src, dst) ∈ (transfer_scp cfg seg fp pre w).2.puts) :
    src = "/var/lib/aos/snapshot/" ++ seg ++ "/aos.data.tar.gz" := by
  rcases transfer_scp_puts_shape cfg seg fp pre w with h | ⟨d, h, -⟩ <;>
    rw [h] at hmem
  · simp at hmem
  · simp at hmem
    exact hmem.1

theorem transfer_scp_put_dst (cfg : ScpConfig) (seg fp : String)
    (pre : Option String) (w : World) (src dst : String)
    (hmem : (src, dst) ∈ (transfer_scp cfg seg fp pre w).2.puts) :
    ∃ dir, dst = dir ++ remoteFilenameOf fp pre := by
  rcases transfer_scp_puts_shape cfg seg fp pre w with h | ⟨d, h, hdir⟩ <;>
    rw [h] at hmem
  · simp at hmem
  · simp at hmem
    exact hmem.2 ▸ hdir

theorem transfer_file_eq (cfg : AppConfig) (fp : String)
    (bid bn : Option String) (clock : Clock) (w : World) :
    transfer_file cfg fp bid bn clock w =
      transfer_scp (cfg.transfer.getD {}) (basename fp) fp
        (some (compose bid bn (strftimeTimestamp clock))) w := by
  simp [transfer_file]

/-! ### Claims about the Secure Transfer Client -/

/-- C2: when the configured host or username is missing or empty,
`transfer_scp` returns `False` immediately: no connection attempt is made, no
session object is created, and nothing is uploaded. -/
theorem c2_missing_config_no_network_io (cfg : ScpConfig) (seg fp : String)
    (pre : Option String) (w : World)
    (h : truthy cfg.host = false ∨ truthy cfg.username = false) :
    (transfer_scp cfg seg fp pre w).1 = false ∧
    (transfer_scp cfg seg fp pre w).2.connectAttempts = 0 ∧
    (transfer_scp cfg seg fp pre w).2.sessionsCreated = 0 ∧
    (transfer_scp cfg seg fp pre w).2.puts = [] := by
  rcases h with h | h <;> simp [transfer_scp, h]

/-- Closed witness for C2: an empty configuration fails with an all-zero
trace. -/
theorem c2_missing_config_no_network_io_witness :
    (transfer_scp cfgMissingHost "bp1" "/tmp/backups/bp1" none {}).1 = false ∧
    (transfer_scp cfgMissingHost "bp1" "/tmp/backups/bp1" none {}).2.connectAttempts = 0 ∧
    (transfer_scp cfgMissingHost "bp1" "/tmp/backups/bp1" none {}).2.sessionsCreated = 0 ∧
    (transfer_scp cfgMissingHost "bp1" "/tmp/backups/bp1" none {}).2.puts = [] :=
  c2_missing_config_no_network_io cfgMissingHost "bp1" "/tmp/backups/bp1" none {}
    (Or.inl rfl)

/-- C7: `transfer_scp` always returns a bare boolean (no exception escapes:
every raised error is mapped to `False` by the except clauses), and the result
is `True` exactly when validation passes, the connection succeeds, the
home-directory query succeeds whenever it is performed, and the upload
succeeds. -/
theorem c7_boolean_result_totality (cfg : ScpConfig) (seg fp : String)
    (pre : Option String) (w : World) :
    (transfer_scp cfg seg fp pre w).1 = true ↔
      (truthy cfg.host = true ∧ truthy cfg.username = true ∧
       w.connectErr = none ∧
       (homeNeeded (cfg.remote_directory.getD "~/") = true → w.execErr = none) ∧
       w.putErr = none) := by
  rcases w with ⟨ce, ee, hd, pe⟩
  cases hh : truthy cfg.host <;> cases hu : truthy cfg.username
  · simp [transfer_scp, hh]
  · simp [transfer_scp, hh]
  · simp [transfer_scp, hh, hu]
  · cases ce
    · by_cases hE : pyEndsWith (cfg.remote_directory.getD "~/") "/"
      · by_cases hS : pyStartsWith (cfg.remote_directory.getD "~/") "~/"
        · cases ee <;> cases pe <;>
            simp [transfer_scp, scpPutAndClose, homeNeeded, hh, hu, hE, hS]
        · cases ee <;> cases pe <;>
            simp [transfer_scp, scpPutAndClose, homeNeeded, hh, hu, hE, hS]
      · by_cases hS : pyStartsWith ((cfg.remote_directory.getD "~/") ++ "/") "~/"
        · cases ee <;> cases pe <;>
            simp [transfer_scp, scpPutAndClose, homeNeeded, hh, hu, hE, hS]
        · cases ee <;> cases pe <;>
            simp [transfer_scp, scpPutAndClose, homeNeeded, hh, hu, hE, hS]
    · simp [transfer_scp, hh, hu]

/-- Closed witness for C7: with a valid configuration and an all-success
oracle the result is `True`. -/
theorem c7_boolean_result_totality_witness :
    (transfer_scp cfgSrv "bp1" "/tmp/backups/bp1" (some "p") wHome).1 = true :=
  (c7_boolean_result_totality cfgSrv "bp1" "/tmp/backups/bp1" (some "p")
    wHome).mpr ⟨rfl, rfl, rfl, fun _ => rfl, rfl⟩

/-- C4: the remote destination directory gets a trailing separator when one is
absent, the `~/` shorthand is replaced using the home directory queried over
the open session, and the upload destination is the resolved directory
followed by the remote filename.  In particular `remote_directory="~/backups/"`
with remote home `/home/svc` resolves to `/home/svc/backups/<remoteFilename>`,
and `remote_directory="/srv/backups"` resolves to
`/srv/backups/<remoteFilename>`. -/
theorem c4_remote_directory_resolution :
    (∀ (cfg : ScpConfig) (seg fp : String) (pre : Option String) (w : World),
        truthy cfg.host = true → truthy cfg.username = true →
        w.connectErr = none → w.execErr = none →
        (transfer_scp cfg seg fp pre w).2.puts =
          [("/var/lib/aos/snapshot/" ++ seg ++ "/aos.data.tar.gz",
            resolveRemoteDirSpec (cfg.remote_directory.getD "~/") w.homeDir ++
              remoteFilenameOf fp pre)]) ∧
    (∀ (cfg : ScpConfig) (seg fp : String) (pre : Option String) (w : World),
        truthy cfg.host = true → truthy cfg.username = true →
        w.connectErr = none → w.execErr = none →
        cfg.remote_directory = some "~/backups/" → w.homeDir = "/home/svc" →
        (transfer_scp cfg seg fp pre w).2.puts =
          [("/var/lib/aos/snapshot/" ++ seg ++ "/aos.data.tar.gz",
            "/home/svc/backups/" ++ remoteFilenameOf fp pre)]) ∧
    (∀ (cfg : ScpConfig) (seg fp : String) (pre : Option String) (w : World),
        truthy cfg.host = true → truthy cfg.username = true →
        w.connectErr = none → w.execErr = none →
        cfg.remote_directory = some "/srv/backups" →
        (transfer_scp cfg seg fp pre w).2.puts =
          [("/var/lib/aos/snapshot/" ++ seg ++ "/aos.data.tar.gz",
            "/srv/backups/" ++ remoteFilenameOf fp pre)]) := by
  have hres1 : resolveRemoteDirSpec "~/backups/" "/home/svc" =
      "/home/svc/backups/" := by decide
  have hres2 : ∀ home, resolveRemoteDirSpec "/srv/backups" home =
      "/srv/backups/" := by
    intro home
    have h1 : pyEndsWith "/srv/backups" "/" = false := by decide
    have h2 : pyStartsWith ("/srv/backups" ++ "/") "~/" = false := by decide
    have h3 : pyStartsWith "/srv/backups/" "~/" = false := by decide
    simp [resolveRemoteDirSpec, h1, h2, h3]
  refine ⟨transfer_scp_puts_of_connected, ?_, ?_⟩
  · intro cfg seg fp pre w hh hu hc he hrd hhd
    rw [transfer_scp_puts_of_connected cfg seg fp pre w hh hu hc he, hrd, hhd]
    simp [hres1]
  · intro cfg seg fp pre w hh hu hc he hrd
    rw [transfer_scp_puts_of_connected cfg seg fp pre w hh hu hc he, hrd]
    simp [hres2]

/-- Closed witness for C4: both concrete resolutions from the spec, at a
concrete upload. -/
theorem c4_remote_directory_resolution_witness :
    (transfer_scp cfgTilde "bp1" "/tmp/backups/bp1" (some "p") wHome).2.puts =
      [("/var/lib/aos/snapshot/bp1/aos.data.tar.gz",
        "/home/svc/backups/" ++ remoteFilenameOf "/tmp/backups/bp1" (some "p"))] ∧
    (transfer_scp cfgSrv "bp1" "/tmp/backups/bp1" (some "p") wHome).2.puts =
      [("/var/lib/aos/snapshot/bp1/aos.data.tar.gz",
        "/srv/backups/" ++ remoteFilenameOf "/tmp/backups/bp1" (some "p"))] :=
  ⟨c4_remote_directory_resolution.2.1 cfgTilde "bp1" "/tmp/backups/bp1"
      (some "p") wHome rfl rfl rfl rfl rfl rfl,
    c4_remote_directory_resolution.2.2 cfgSrv "bp1" "/tmp/backups/bp1"
      (some "p") wHome rfl rfl rfl rfl rfl⟩

/-- C3: every upload performed by `transfer_scp` reads the fixed staging
template `/var/lib/aos/snapshot/<segment>/aos.data.tar.gz` — dependent only on
the path-segment argument, never on the configuration; through the
`transfer_file` entry point the segment is `basename(full_path)`; and at a
concrete invocation the uploaded path differs from the caller-supplied local
file path. -/
theorem c3_fixed_local_source_template :
    (∀ (cfg : ScpConfig) (seg fp : String) (pre : Option String) (w : World)
        (src dst : String),
        (src, dst) ∈ (transfer_scp cfg seg fp pre w).2.puts →
        src = "/var/lib/aos/snapshot/" ++ seg ++ "/aos.data.tar.gz") ∧
    (∀ (cfg : AppConfig) (fp : String) (bid bn : Option String) (clock : Clock)
        (w : World) (src dst : String),
        (src, dst) ∈ (transfer_file cfg fp bid bn clock w).2.puts →
        src = "/var/lib/aos/snapshot/" ++ basename fp ++ "/aos.data.tar.gz") ∧
    ((transfer_scp cfgSrv "bp1" "/tmp/backups/bp1" none wHome).2.puts =
        [("/var/lib/aos/snapshot/bp1/aos.data.tar.gz",
          "/srv/backups/bp1-aos.data.tar.gz")] ∧
      ("/var/lib/aos/snapshot/bp1/aos.data.tar.gz" : String) ≠
        "/tmp/backups/bp1") := by
  refine ⟨transfer_scp_put_src, ?_, by decide⟩
  intro cfg fp bid bn clock w src dst hmem
  rw [transfer_file_eq] at hmem
  exact transfer_scp_put_src _ _ _ _ _ _ _ hmem

/-- Closed witness for C3: the general template property applied at a concrete
upload recorded by a run of `transfer_scp`. -/
theorem c3_fixed_local_source_template_witness :
    ("/var/lib/aos/snapshot/bp1/aos.data.tar.gz" : String) =
      "/var/lib/aos/snapshot/" ++ "bp1" ++ "/aos.data.tar.gz" :=
  c3_fixed_local_source_template.1 cfgSrv "bp1" "/tmp/backups/bp1" none wHome
    "/var/lib/aos/snapshot/bp1/aos.data.tar.gz"
    "/srv/backups/bp1-aos.data.tar.gz" (by decide)

/-- C6: the remote filename is `<customFilenamePrefix>-aos.data.tar.gz` when a
prefix is supplied (truthy), `<basename(full_path)>-aos.data.tar.gz` when not;
the suffix `-aos.data.tar.gz` is fixed for all inputs; and every upload
destination recorded by `transfer_scp` ends with this remote filename. -/
theorem c6_remote_filename_format :
    (∀ (fp : String) (pre : Option String), truthy pre = true →
        remoteFilenameOf fp pre = pre.getD "" ++ "-aos.data.tar.gz") ∧
    (∀ (fp : String) (pre : Option String), truthy pre = false →
        remoteFilenameOf fp pre = basename fp ++ "-aos.data.tar.gz") ∧
    (∀ (fp : String) (pre : Option String),
        ∃ front, remoteFilenameOf fp pre = front ++ "-aos.data.tar.gz") ∧
    (∀ (cfg : ScpConfig) (seg fp : String) (pre : Option String) (w : World)
        (src dst : String),
        (src, dst) ∈ (transfer_scp cfg seg fp pre w).2.puts →
        ∃ dir, dst = dir ++ remoteFilenameOf fp pre) := by
  refine ⟨fun fp pre h => ?_, fun fp pre h => ?_, fun fp pre => ?_,
    transfer_scp_put_dst⟩
  · simp [remoteFilenameOf, h]
  · simp [remoteFilenameOf, h]
  · cases h : truthy pre
    · exact ⟨basename fp, by simp [remoteFilenameOf, h]⟩
    · exact ⟨pre.getD "", by simp [remoteFilenameOf, h]⟩

/-- Closed witness for C6: both branches of the remote-filename computation at
concrete inputs. -/
theorem c6_remote_filename_format_witness :
    remoteFilenameOf "/tmp/backups/bp1" (some "p") = "p" ++ "-aos.data.tar.gz" ∧
    remoteFilenameOf "/tmp/backups/bp1" none = basename "/tmp/backups/bp1" ++
      "-aos.data.tar.gz" :=
  ⟨c6_remote_filename_format.1 "/tmp/backups/bp1" (some "p") rfl,
    c6_remote_filename_format.2.1 "/tmp/backups/bp1" none rfl⟩

/-- C10: through the `transfer_file` entry point the prefix handed to
`transfer_scp` is the composed filename, which always contains the timestamp
and is therefore truthy, so the basename fallback branch of the
remote-filename computation is not taken and the remote filename always ends
with `<timestamp>-aos.data.tar.gz`. -/
theorem c10_transfer_file_prefix_nonempty (cfg : AppConfig) (fp : String)
    (bid bn : Option String) (clock : Clock) (w : World) :
    transfer_file cfg fp bid bn clock w =
      transfer_scp (cfg.transfer.getD {}) (basename fp) fp
        (some (compose bid bn (strftimeTimestamp clock))) w ∧
    truthy (some (compose bid bn (strftimeTimestamp clock))) = true ∧
    remoteFilenameOf fp (some (compose bid bn (strftimeTimestamp clock))) =
      compose bid bn (strftimeTimestamp clock) ++ "-aos.data.tar.gz" ∧
    ∃ front,
      remoteFilenameOf fp (some (compose bid bn (strftimeTimestamp clock))) =
        front ++ (strftimeTimestamp clock ++ "-aos.data.tar.gz") := by
  have hne : compose bid bn (strftimeTimestamp clock) ≠ "" :=
    compose_ne_empty bid bn _ (strftimeTimestamp_ne_empty clock)
  have ht : truthy (some (compose bid bn (strftimeTimestamp clock))) = true :=
    (truthy_some_iff _).mpr hne
  refine ⟨transfer_file_eq cfg fp bid bn clock w, ht, by simp [remoteFilenameOf, ht], ?_⟩
  obtain ⟨front, hf⟩ := compose_endsWith_ts bid bn (strftimeTimestamp clock)
  refine ⟨front, ?_⟩
  rw [hf] at ht
  rw [hf]
  simp [remoteFilenameOf, ht, String.append_assoc]

/-- C1 evidence: with a valid configuration, when `scp.put` raises
mid-transfer the function returns `False` having attempted the upload but
without closing either the SCP sub-channel or the SSH session (both close
counts are zero, not one); on the success path both are closed exactly once. -/
theorem c1_close_counts_on_put_exception :
    ((transfer_scp cfgSrv "bp1" "/tmp/backups/bp1" (some "p") wPutRaises).1 = false ∧
     (transfer_scp cfgSrv "bp1" "/tmp/backups/bp1" (some "p") wPutRaises).2.puts.length = 1 ∧
     (transfer_scp cfgSrv "bp1" "/tmp/backups/bp1" (some "p") wPutRaises).2.scpCloseCount = 0 ∧
     (transfer_scp cfgSrv "bp1" "/tmp/backups/bp1" (some "p") wPutRaises).2.sshCloseCount = 0) ∧
    ((transfer_scp cfgSrv "bp1" "/tmp/backups/bp1" (some "p") wHome).1 = true ∧
     (transfer_scp cfgSrv "bp1" "/tmp/backups/bp1" (some "p") wHome).2.scpCloseCount = 1 ∧
     (transfer_scp cfgSrv "bp1" "/tmp/backups/bp1" (some "p") wHome).2.sshCloseCount = 1) := by
  decide

end ApstraBackup
